import Mathlib

/-!
Shallow embedding of the Yezdi Adventure Dashboard telemetry engine
(`src/unnamed/part_002` — class YezdiBleManager, `src/unnamed/part_003` —
class YezdiStorageManager, `src/utils/SensorManager.js` — class
YezdiSensorManager), together with theorems settling the frozen claims
about the frame decoder, the operational log, the telemetry cache, the
authentication chain, the GPS speed fallback, the mock data generator and
the manager lifecycle.

Modelling conventions: byte buffers are lists of naturals holding byte
values; JavaScript exceptions are `Except String`; the asynchronous
environment (permission results, storage contents, random draws) is passed
as explicit parameters; JavaScript number arithmetic on sensor/mock values
is over the rationals; absent object fields that are only tested for
truthiness are modelled by the empty string, which is falsy exactly like
`undefined`. Dynamic parts of log message strings (interpolated error
texts, hex dumps) are elided; the static message heads and the severity
levels are kept verbatim.
-/

namespace Yezdi

/-- Entry of the operational log: severity level and message
(part_002 line 54; the ISO timestamp recorded there is an environment
input and is elided from the model). -/
structure LogEntry where
  level : String
  message : String
deriving DecidableEq

/-- Helper building an INFO entry. -/
def infoEntry (m : String) : LogEntry := ⟨"INFO", m⟩

/-- Helper building a WARN entry. -/
def warnEntry (m : String) : LogEntry := ⟨"WARN", m⟩

/-- Helper building an ERROR entry. -/
def errEntry (m : String) : LogEntry := ⟨"ERROR", m⟩

/-- Embedding of `log(level, message)` (part_002 lines 52-63): push the
entry, then if the list length exceeds 500 keep only the last 500
(`this.debugLogs.slice(-500)`). -/
def log (logs : List LogEntry) (level message : String) : List LogEntry :=
  let l := logs ++ [⟨level, message⟩]
  if 500 < l.length then l.drop (l.length - 500) else l

/-- Sequence of appends through `log`, oldest first. -/
def logAll (logs : List LogEntry) (es : List LogEntry) : List LogEntry :=
  es.foldl (fun acc e => log acc e.level e.message) logs

/-- Embedding of `getDebugLogs()` (part_002 lines 65-67): returns the
current log list unchanged. -/
def getDebugLogs (logs : List LogEntry) : List LogEntry := logs

/-- JavaScript value that is either a number or a string, as used for the
`speed` and `gear` fields which hold a number on a successful decode and
the string sentinel in the fallback record. -/
inductive NumOrStr where
  | num (n : Nat)
  | str (s : String)
deriving DecidableEq

/-- Telemetry record as built by `parseIncomingData` (part_002).
Fields absent from a decode strategy result (tripA/tripB/afe/bfe) are
modelled by the empty string, which is falsy like `undefined`. -/
structure TelemetryData where
  speed : NumOrStr
  gear : NumOrStr
  rpm : Nat
  fuel : Nat
  ridingMode : String
  highBeam : Bool
  hazard : Bool
  engineCheck : Bool
  battery : Bool
  odometer : String
  tripA : String
  tripB : String
  afe : String
  bfe : String
deriving DecidableEq

/-- Embedding of `Buffer.prototype.readUInt8`: one byte at `offset`;
throws a RangeError when `offset + 1` exceeds the buffer length. -/
def readUInt8 (buf : List Nat) (offset : Nat) : Except String Nat :=
  if offset + 1 ≤ buf.length then .ok (buf.getD offset 0)
  else .error "Trying to access beyond buffer length"

/-- Embedding of `Buffer.prototype.readUInt16BE`: big-endian 16-bit value
at `offset` (for byte values the bitwise composition used by the library
coincides with this arithmetic); throws when `offset + 2` exceeds the
buffer length. -/
def readUInt16BE (buf : List Nat) (offset : Nat) : Except String Nat :=
  if offset + 2 ≤ buf.length then
    .ok (buf.getD offset 0 * 256 + buf.getD (offset + 1) 0)
  else .error "Trying to access beyond buffer length"

/-- Embedding of `Buffer.prototype.readUInt32BE`: big-endian 32-bit value
at `offset`; throws when `offset + 4` exceeds the buffer length. -/
def readUInt32BE (buf : List Nat) (offset : Nat) : Except String Nat :=
  if offset + 4 ≤ buf.length then
    .ok (((buf.getD offset 0 * 256 + buf.getD (offset + 1) 0) * 256
          + buf.getD (offset + 2) 0) * 256 + buf.getD (offset + 3) 0)
  else .error "Trying to access beyond buffer length"

/-- Embedding of the three length-selected decode strategies inside the
`try` block of `parseIncomingData` (part_002 lines 421-466).  The
JavaScript truthiness coercions are kept: `readUInt8(1) || 1` is 1 when
byte 1 is 0; `x || 0` on a number is the number itself; the riding mode
index `byte5 % 3` is always in range so the `|| "Road"` default never
fires but is kept as `getD`.  The only read whose bounds check can fail
inside a taken branch is `readUInt32BE(7)`, which needs 11 bytes while
the branch guard only ensures 10. -/
def parseStrategies (buf : List Nat) : Except String TelemetryData :=
  if 10 ≤ buf.length then do
    let b0 ← readUInt8 buf 0
    let b1 ← readUInt8 buf 1
    let r16 ← readUInt16BE buf 2
    let b4 ← readUInt8 buf 4
    let b5 ← readUInt8 buf 5
    let b6 ← readUInt8 buf 6
    let odo ← readUInt32BE buf 7
    .ok { speed := .num b0
          gear := .num (if b1 = 0 then 1 else b1)
          rpm := r16 * 10
          fuel := b4
          ridingMode := ["Road", "Rain", "Off-Road"].getD (b5 % 3) "Road"
          highBeam := b6 &&& 1 != 0
          hazard := b6 &&& 2 != 0
          engineCheck := b6 &&& 4 != 0
          battery := b6 &&& 8 != 0
          odometer := Nat.repr odo
          tripA := "", tripB := "", afe := "", bfe := "" }
  else if 4 ≤ buf.length then do
    let b0 ← readUInt8 buf 0
    let b1 ← readUInt8 buf 1
    let r16 ← readUInt16BE buf 2
    .ok { speed := .num b0
          gear := .num (max (if b1 = 0 then 1 else b1) 1)
          rpm := r16 * 50
          fuel := 50
          ridingMode := "Road"
          highBeam := false, hazard := false, engineCheck := false
          battery := true
          odometer := "00000"
          tripA := "", tripB := "", afe := "", bfe := "" }
  else
    .ok { speed := .num (if 0 < buf.length then buf.getD 0 0 else 0)
          gear := .num 1
          rpm := 0
          fuel := 0
          ridingMode := "Road"
          highBeam := false, hazard := false, engineCheck := false
          battery := false
          odometer := "--"
          tripA := "", tripB := "", afe := "", bfe := "" }

/-- Fallback record built in the `catch` of `parseIncomingData`
(part_002 lines 484-499): every displayed field is the "--" sentinel or
zero/false. -/
def fallbackData : TelemetryData :=
  { speed := .str "--", gear := .str "--", rpm := 0, fuel := 0
    ridingMode := "Road"
    highBeam := false, hazard := false, engineCheck := false, battery := false
    odometer := "--", tripA := "--", tripB := "--", afe := "--", bfe := "--" }

/-- Random filler values for the trip and fuel-economy fields, already
formatted (`toFixed(1)` of the random draws at part_002 lines 469-472);
the draws themselves are environment input. -/
structure TripRand where
  tripA : String
  tripB : String
  afe : String
  bfe : String

/-- Embedding of the trip filler (part_002 lines 469-472): a field is
replaced only when falsy, and the decode strategies never set it. -/
def fillTrips (d : TelemetryData) (r : TripRand) : TelemetryData :=
  { d with
    tripA := if d.tripA = "" then r.tripA else d.tripA
    tripB := if d.tripB = "" then r.tripB else d.tripB
    afe := if d.afe = "" then r.afe else d.afe
    bfe := if d.bfe = "" then r.bfe else d.bfe }

/-- Log entries for the strategy selection: the short and very short
tiers emit a WARN before building their record (part_002 lines 437, 453). -/
def tierLogs (buf : List Nat) : List LogEntry :=
  if 10 ≤ buf.length then []
  else if 4 ≤ buf.length then [warnEntry "Short data packet"]
  else [warnEntry "Very short data packet"]

/-- Embedding of `parseIncomingData` (part_002 lines 410-503): decode the
buffer through the length-selected strategy, fill the trip fields, and on
any exception substitute the fallback record and log the failure.  The
function is total: no exception escapes it.  Returns the record handed to
the data callback together with the log entries appended. -/
def parseIncomingData (buf : List Nat) (r : TripRand) :
    TelemetryData × List LogEntry :=
  match parseStrategies buf with
  | .ok d =>
    (fillTrips d r,
     infoEntry "Received BLE data" :: tierLogs buf ++ [infoEntry "Parsed data"])
  | .error _ =>
    (fallbackData,
     [infoEntry "Received BLE data", errEntry "Data parsing failed"])

/-- Embedding of `saveCachedData(data)` (part_003 lines 49-54): overwrite
the single cache slot with the record and the current time in
milliseconds. -/
def saveCachedData (d : TelemetryData) (now : Nat) : Option (TelemetryData × Nat) :=
  some (d, now)

/-- Embedding of `getCachedData()` (part_003 lines 56-66): the slot is
returned only when it is present, its `timestamp` field is truthy
(nonzero), and `Date.now() - timestamp` is below one hour
(3600000 ms, signed JavaScript subtraction). -/
def getCachedData (slot : Option (TelemetryData × Nat)) (now : Nat) :
    Option (TelemetryData × Nat) :=
  match slot with
  | some (d, ts) =>
    if ts ≠ 0 ∧ (now : ℤ) - (ts : ℤ) < 3600000 then some (d, ts) else none
  | none => none

/-- JavaScript `Math.round`: round half away from zero upward, the floor
of `x + 1/2`. -/
def jsRound (q : ℚ) : ℤ := ⌊q + 1 / 2⌋

/-- Speed estimate of the GPS fallback handler (part_002 lines 584-585):
distance in metres over elapsed seconds, times 3.6 for km/h. -/
def gpsSpeedEstimate (distance timeDiffSec : ℚ) : ℚ :=
  distance / timeDiffSec * (18 / 5)

/-- Embedding of the emission decision of the BLE manager GPS fallback
(part_002 lines 587-596): the rounded estimate is handed to the data
callback only when `speed > 0 && speed < 200`; otherwise nothing is
emitted. -/
def gpsFallbackEmit (speed : ℚ) : Option ℤ :=
  if 0 < speed ∧ speed < 200 then some (jsRound speed) else none

/-- Record handed to the data callback by the GPS fallback when the
estimate is accepted: the last known record with the rounded speed
substituted (part_002 lines 590-595). -/
def gpsFallbackRecord (last : TelemetryData) (speed : ℚ) : Option TelemetryData :=
  if 0 < speed ∧ speed < 200 then
    some { last with speed := .num (jsRound speed).toNat }
  else none

/-- Embedding of the validation in `startGPSTracking`
(SensorManager.js lines 67-70): estimates below 0 or above 300 km/h are
zeroed; the (possibly zeroed) value is then always delivered. -/
def sensorValidateSpeed (s : ℚ) : ℚ :=
  if s < 0 ∨ 300 < s then 0 else s

/-- Random draws consumed by one tick of the mock data generator
(part_002 lines 523-543), each in the interval [0, 1). -/
structure MockRand where
  r1 : ℚ
  r2 : ℚ
  r3 : ℚ
  r4 : ℚ
  r5 : ℚ

/-- Mutable numeric fields of `this.mockData` touched by the generator. -/
structure MockData where
  speed : ℚ
  gear : ℤ
  rpm : ℚ
  fuel : ℚ

/-- Initial `this.mockData` numeric fields (part_002 lines 24-28). -/
def initialMockData : MockData := ⟨0, 1, 0, 0⟩

/-- Embedding of one interval tick of `startMockDataSimulation`
(part_002 lines 523-543).  Speed, rpm and fuel are perturbed only when
currently positive; the gear test reads the speed already updated by this
tick, mirroring the sequential mutation of `this.mockData`. -/
def mockTick (m : MockData) (r : MockRand) : MockData :=
  let speed := if 0 < m.speed then max 0 (m.speed + (r.r1 - 1 / 2) * 5) else m.speed
  let rpm := if 0 < m.rpm then max 0 (m.rpm + (r.r2 - 1 / 2) * 200) else m.rpm
  let fuel := if 0 < m.fuel then max 0 (m.fuel - r.r3 * (5 / 100)) else m.fuel
  let gear :=
    if 10 < speed ∧ 49 / 50 < r.r4 then
      max 1 (min 6 (m.gear + (if 1 / 2 < r.r5 then 1 else -1)))
    else m.gear
  ⟨speed, gear, rpm, fuel⟩

/-- Run of the mock generator over a sequence of ticks. -/
def mockRun (m : MockData) (rs : List MockRand) : MockData :=
  rs.foldl mockTick m

/-- Log entry announcing authentication attempt `i` (part_002 line 316). -/
def attemptLog (i : Nat) : LogEntry :=
  infoEntry ("Attempting authentication method " ++ Nat.repr i)

/-- Log entry for a successful attempt `i` (part_002 line 318). -/
def attemptOkLog (i : Nat) : LogEntry :=
  infoEntry ("Authentication method " ++ Nat.repr i ++ " successful")

/-- Log entry for a failed attempt `i` (part_002 line 321). -/
def attemptFailLog (i : Nat) (m : String) : LogEntry :=
  warnEntry ("Authentication method " ++ Nat.repr i ++ " failed: " ++ m)

/-- Exhaustion entry after the loop (part_002 line 325). -/
def exhaustLog : LogEntry :=
  warnEntry "All authentication methods failed, proceeding without authentication"

/-- Loop body of `attemptAuthentication` (part_002 lines 314-325), with
`i` the 1-based number of the next strategy and the list holding the
outcome each remaining strategy would produce when invoked.  A success
returns at once; a thrown error is caught, logged and the next strategy is
tried; after the loop the exhaustion warning is logged.  The `Except`
component is the outcome of the whole call. -/
def authLoop : Nat → List (Except String Unit) → List LogEntry × Except String Unit
  | _, [] => ([exhaustLog], .ok ())
  | i, .ok _ :: _ => ([attemptLog i, attemptOkLog i], .ok ())
  | i, .error m :: rest =>
    let next := authLoop (i + 1) rest
    (attemptLog i :: attemptFailLog i m :: next.1, next.2)

/-- Embedding of `attemptAuthentication(device)` (part_002 lines 307-326):
run the fixed chain (generic key write, challenge-response digest, bonding
handshake) from strategy 1. -/
def attemptAuthentication (methods : List (Except String Unit)) :
    List LogEntry × Except String Unit :=
  authLoop 1 methods

/-- Instrumentation counters for the connection sequence: how many times
each per-connection step has run. -/
structure MgrCounters where
  discovers : Nat
  monitorSetups : Nat
  connCallbacks : Nat
  dataUpdates : Nat
deriving DecidableEq

/-- Embedding of `discoverServices` (part_002 lines 281-304): it catches
every internal error, so it always returns; modelled by its step
counter. -/
def discoverServices (c : MgrCounters) : MgrCounters :=
  { c with discovers := c.discovers + 1 }

/-- Embedding of `setupDataMonitoring` (part_002 lines 376-407): it
catches every internal error, so it always returns. -/
def setupDataMonitoring (c : MgrCounters) : MgrCounters :=
  { c with monitorSetups := c.monitorSetups + 1 }

/-- Successful connection callback step (part_002 line 268). -/
def notifyConnection (c : MgrCounters) : MgrCounters :=
  { c with connCallbacks := c.connCallbacks + 1 }

/-- Embedding of `startDataUpdates` (part_002 lines 506-515). -/
def startDataUpdates (c : MgrCounters) : MgrCounters :=
  { c with dataUpdates := c.dataUpdates + 1 }

/-- Embedding of `connectToDevice` (part_002 lines 249-278): connect,
discover services, run the authentication chain, set up data monitoring,
fire the connection callback and start data updates; any exception among
the awaited steps jumps to the catch, which logs and rethrows.
`connectRes` is the outcome of the radio-level connect, `methods` the
outcomes of the three authentication strategies. -/
def connectToDevice (connectRes : Except String Unit)
    (methods : List (Except String Unit)) (c : MgrCounters) :
    Except String MgrCounters :=
  match connectRes with
  | .error e => .error ("Connection failed: " ++ e)
  | .ok _ =>
    let c1 := discoverServices c
    match (attemptAuthentication methods).2 with
    | .error e => .error ("Connection failed: " ++ e)
    | .ok _ => .ok (startDataUpdates (notifyConnection (setupDataMonitoring c1)))

/-- Custom link settings (part_002 lines 17-21). -/
structure CustomSettings where
  serviceUUID : String
  charUUID : String
  authKey : String
deriving DecidableEq

/-- Constructor defaults of the custom settings (part_002 lines 17-21). -/
def defaultCustomSettings : CustomSettings := ⟨"", "", "YEZDI_AUTH_DEFAULT"⟩

/-- Parsed custom-settings object as read back from storage; each field
may be absent, mirroring the object spread merge. -/
structure SettingsPatch where
  serviceUUID : Option String
  charUUID : Option String
  authKey : Option String

/-- Object spread `{ ...this.customSettings, ...JSON.parse(settings) }`
(part_002 line 129): a present field overrides, an absent one keeps the
base value. -/
def mergeSettings (b : CustomSettings) (p : SettingsPatch) : CustomSettings :=
  ⟨p.serviceUUID.getD b.serviceUUID, p.charUUID.getD b.charUUID,
   p.authKey.getD b.authKey⟩

/-- Storage environment: the outcome of reading and JSON-parsing each
persisted key (an `Except.error` models the read or the parse throwing,
`none` a missing key). -/
structure StorageEnv where
  cachedData : Except String (Option TelemetryData)
  customSettings : Except String (Option SettingsPatch)

/-- Permission environment: the outcome of each permission request (an
`Except.error` models the platform call throwing, the boolean whether the
status is granted). -/
structure PermEnv where
  locationGranted : Except String Bool
  cameraGranted : Except String Bool

/-- Manager state touched by the lifecycle entry point. -/
structure BleState where
  customSettings : CustomSettings
  lastKnownData : Option TelemetryData
  mockDataEnabled : Bool

/-- Constructor state of the manager (part_002 lines 10-49). -/
def initialBleState : BleState := ⟨defaultCustomSettings, none, false⟩

/-- Embedding of `requestPermissions` (part_002 lines 98-116): each
denied permission only produces a WARN entry; any platform error is
caught and logged; the method never throws. -/
def requestPermissions (env : PermEnv) : List LogEntry :=
  match env.locationGranted with
  | .error _ => [errEntry "Permission request failed"]
  | .ok loc =>
    let l1 :=
      if loc then []
      else [warnEntry "Location permission denied - GPS fallback unavailable"]
    match env.cameraGranted with
    | .error _ => l1 ++ [errEntry "Permission request failed"]
    | .ok cam =>
      l1 ++
        (if cam then []
         else [warnEntry "Camera permission denied - QR code authentication unavailable"]) ++
        [infoEntry "Permissions requested"]

/-- Embedding of `loadCachedSettings` (part_002 lines 119-135): read the
cached telemetry snapshot and the custom link settings; a throw from
either read is caught and logged, aborting the rest of the body; the
method never throws. -/
def loadCachedSettings (sto : StorageEnv) (st : BleState) :
    BleState × List LogEntry :=
  match sto.cachedData with
  | .error _ => (st, [errEntry "Failed to load cached settings"])
  | .ok c =>
    let s1 : BleState × List LogEntry :=
      match c with
      | some d => ({ st with lastKnownData := some d }, [infoEntry "Loaded cached data"])
      | none => (st, [])
    match sto.customSettings with
    | .error _ => (s1.1, s1.2 ++ [errEntry "Failed to load cached settings"])
    | .ok p =>
      match p with
      | some patch =>
        ({ s1.1 with customSettings := mergeSettings s1.1.customSettings patch },
         s1.2 ++ [infoEntry "Loaded custom BLE settings"])
      | none => s1

/-- Embedding of the manager lifecycle entry point `initialize()`
(part_002 lines 75-95, named `initManager` here): request permissions,
load cached data and settings, optionally start the mock simulation.
Each awaited step catches its own errors, so the catch-and-rethrow at
lines 91-94 is never reached and the call always resolves. -/
def initManager (env : PermEnv) (sto : StorageEnv) (st : BleState) :
    Except String (BleState × List LogEntry) :=
  let lp := requestPermissions env
  let s1 := loadCachedSettings sto st
  .ok (s1.1,
    infoEntry "Initializing BLE Manager" :: lp ++ s1.2 ++
      [infoEntry "BLE Manager initialized successfully"])

/-! Reduction lemmas for the buffer reads on explicit cons cells. -/

theorem readUInt8_zero (a : Nat) (l : List Nat) : readUInt8 (a :: l) 0 = .ok a := by
  simp [readUInt8]

theorem readUInt8_succ (a : Nat) (l : List Nat) (i : Nat) :
    readUInt8 (a :: l) (i + 1) = readUInt8 l i := by
  simp [readUInt8, Nat.add_le_add_iff_right]

theorem readUInt16BE_zero (a b : Nat) (l : List Nat) :
    readUInt16BE (a :: b :: l) 0 = .ok (a * 256 + b) := by
  simp [readUInt16BE]

theorem readUInt16BE_succ (a : Nat) (l : List Nat) (i : Nat) :
    readUInt16BE (a :: l) (i + 1) = readUInt16BE l i := by
  simp [readUInt16BE, Nat.add_le_add_iff_right]

theorem readUInt32BE_zero (a b c d : Nat) (l : List Nat) :
    readUInt32BE (a :: b :: c :: d :: l) 0 =
      .ok (((a * 256 + b) * 256 + c) * 256 + d) := by
  simp [readUInt32BE]

theorem readUInt32BE_succ (a : Nat) (l : List Nat) (i : Nat) :
    readUInt32BE (a :: l) (i + 1) = readUInt32BE l i := by
  simp [readUInt32BE, Nat.add_le_add_iff_right]

/-- Reduction of the Except monad bind on a success value. -/
theorem exceptBindOk {α β ε : Type} (a : α) (f : α → Except ε β) :
    (Except.ok a >>= f) = f a := rfl

/-- Reduction of the Except monad bind on a thrown error. -/
theorem exceptBindError {α β ε : Type} (e : ε) (f : α → Except ε β) :
    ((Except.error e : Except ε α) >>= f) = .error e := rfl

/-- Sample trip filler used for concrete evaluations. -/
def tripRandSample : TripRand := ⟨"150.0", "350.0", "20.0", "18.0"⟩

/-- C1, counterexample: the claim quantifies over every buffer of length
at least 10, but a buffer of exactly 10 bytes makes `readUInt32BE(7)`
throw (it needs bytes 7 through 10, hence 11 bytes), so the decoder
falls to the catch block and emits the fallback record whose speed is the
"--" sentinel rather than byte 0; moreover, on an 11-byte buffer whose
byte 1 is 0 the decoded gear is 1, not byte 1, because of the `|| 1`
coercion. -/
theorem parse_full_decode_cex :
    parseStrategies [45, 3, 2, 88, 60, 0, 5, 0, 0, 0] =
      .error "Trying to access beyond buffer length" ∧
    (parseIncomingData [45, 3, 2, 88, 60, 0, 5, 0, 0, 0] tripRandSample).1.speed =
      .str "--" ∧
    (parseStrategies [45, 0, 2, 88, 60, 0, 5, 0, 0, 0, 100]).map TelemetryData.gear =
      .ok (.num 1) := by
  refine ⟨rfl, rfl, rfl⟩

/-- C1 (amended): for every byte buffer of length at least 11 the decoder
is deterministic and produces speed = byte 0, gear = byte 1 coerced to 1
when byte 1 is 0, rpm = the big-endian 16-bit value at bytes 2-3 times
10, fuel = byte 4, riding mode indexed by byte 5 mod 3, the four flags
from bits 0-3 of byte 6, and odometer = the decimal string of the
big-endian 32-bit value at bytes 7-10; a buffer of exactly 10 bytes
instead raises internally.  In particular the 11-byte example buffer
decodes to speed 45, gear 3, rpm 6000, fuel 60, mode Road,
highBeam/engineCheck on, hazard/battery off, odometer "100". -/
theorem parse_full_decode (b0 b1 b2 b3 b4 b5 b6 b7 b8 b9 b10 : Nat)
    (rest : List Nat) :
    parseStrategies (b0 :: b1 :: b2 :: b3 :: b4 :: b5 :: b6 :: b7 :: b8 :: b9 :: b10 :: rest) =
      .ok { speed := .num b0
            gear := .num (if b1 = 0 then 1 else b1)
            rpm := (b2 * 256 + b3) * 10
            fuel := b4
            ridingMode := ["Road", "Rain", "Off-Road"].getD (b5 % 3) "Road"
            highBeam := b6 &&& 1 != 0
            hazard := b6 &&& 2 != 0
            engineCheck := b6 &&& 4 != 0
            battery := b6 &&& 8 != 0
            odometer := Nat.repr (((b7 * 256 + b8) * 256 + b9) * 256 + b10)
            tripA := "", tripB := "", afe := "", bfe := "" } ∧
    parseStrategies [45, 3, 2, 88, 60, 0, 5, 0, 0, 0, 100] =
      .ok { speed := .num 45, gear := .num 3, rpm := 6000, fuel := 60
            ridingMode := "Road", highBeam := true, hazard := false
            engineCheck := true, battery := false, odometer := "100"
            tripA := "", tripB := "", afe := "", bfe := "" } := by
  refine ⟨?_, rfl⟩
  rw [parseStrategies, if_pos (by simp only [List.length_cons]; omega)]
  simp only [readUInt8_succ, readUInt8_zero, readUInt16BE_succ, readUInt16BE_zero,
    readUInt32BE_succ, readUInt32BE_zero, Except.bind]
  rfl

/-- C7, counterexample: in the minimal tier the decoded record has
`battery` true (part_002 line 447) while the claim says all four flags
are false, and the odometer is the "00000" placeholder rather than the
"--" unknown sentinel. -/
theorem parse_minimal_decode_cex :
    (parseStrategies [5, 0, 1, 0]).map TelemetryData.battery = .ok true ∧
    (parseStrategies [5, 0, 1, 0]).map TelemetryData.odometer = .ok "00000" := by
  refine ⟨rfl, rfl⟩

/-- C7 (amended): for every byte buffer of length between 4 and 9 the
decoder produces speed = byte 0, gear = byte 1 clamped to at least 1,
rpm = the big-endian 16-bit value at bytes 2-3 times 50, fuel = 50,
riding mode Road, highBeam/hazard/engineCheck false, battery true, and
odometer the "00000" placeholder. -/
theorem parse_minimal_decode (b0 b1 b2 b3 : Nat) (rest : List Nat)
    (h : rest.length ≤ 5) :
    parseStrategies (b0 :: b1 :: b2 :: b3 :: rest) =
      .ok { speed := .num b0
            gear := .num (max (if b1 = 0 then 1 else b1) 1)
            rpm := (b2 * 256 + b3) * 50
            fuel := 50
            ridingMode := "Road"
            highBeam := false, hazard := false, engineCheck := false
            battery := true
            odometer := "00000"
            tripA := "", tripB := "", afe := "", bfe := "" } := by
  rw [parseStrategies, if_neg (by simp only [List.length_cons]; omega),
    if_pos (by simp only [List.length_cons]; omega)]
  simp only [readUInt8_succ, readUInt8_zero, readUInt16BE_succ, readUInt16BE_zero,
    Except.bind]
  rfl

/-- Witness for C7 at the concrete 4-byte buffer [5, 0, 1, 0]. -/
theorem parse_minimal_decode_witness :
    parseStrategies [5, 0, 1, 0] =
      .ok { speed := .num 5, gear := .num 1, rpm := 256 * 50, fuel := 50
            ridingMode := "Road"
            highBeam := false, hazard := false, engineCheck := false
            battery := true, odometer := "00000"
            tripA := "", tripB := "", afe := "", bfe := "" } :=
  parse_minimal_decode 5 0 1 0 [] (by decide)

/-- C10 (confirmed): every record produced by a successful decode of a
nonempty buffer carries a numeric gear of at least 1: the full tier
coerces a zero gear byte to 1, the minimal tier clamps it to at least 1,
and the basic tier fixes it at 1. -/
theorem decode_gear_ge_one (buf : List Nat) (d : TelemetryData)
    (h1 : 1 ≤ buf.length) (h2 : parseStrategies buf = .ok d) :
    ∃ g, d.gear = .num g ∧ 1 ≤ g := by
  unfold parseStrategies at h2
  split at h2
  · cases h0 : readUInt8 buf 0 with
    | error e => rw [h0, exceptBindError] at h2; exact Except.noConfusion h2
    | ok v0 =>
    rw [h0, exceptBindOk] at h2
    cases hb : readUInt8 buf 1 with
    | error e => rw [hb, exceptBindError] at h2; exact Except.noConfusion h2
    | ok v1 =>
    rw [hb, exceptBindOk] at h2
    cases hc : readUInt16BE buf 2 with
    | error e => rw [hc, exceptBindError] at h2; exact Except.noConfusion h2
    | ok v2 =>
    rw [hc, exceptBindOk] at h2
    cases hd : readUInt8 buf 4 with
    | error e => rw [hd, exceptBindError] at h2; exact Except.noConfusion h2
    | ok v4 =>
    rw [hd, exceptBindOk] at h2
    cases he : readUInt8 buf 5 with
    | error e => rw [he, exceptBindError] at h2; exact Except.noConfusion h2
    | ok v5 =>
    rw [he, exceptBindOk] at h2
    cases hf : readUInt8 buf 6 with
    | error e => rw [hf, exceptBindError] at h2; exact Except.noConfusion h2
    | ok v6 =>
    rw [hf, exceptBindOk] at h2
    cases hg : readUInt32BE buf 7 with
    | error e => rw [hg, exceptBindError] at h2; exact Except.noConfusion h2
    | ok v7 =>
    rw [hg, exceptBindOk] at h2
    cases h2
    exact ⟨if v1 = 0 then 1 else v1, rfl, by split <;> omega⟩
  · split at h2
    · cases h0 : readUInt8 buf 0 with
      | error e => rw [h0, exceptBindError] at h2; exact Except.noConfusion h2
      | ok v0 =>
      rw [h0, exceptBindOk] at h2
      cases hb : readUInt8 buf 1 with
      | error e => rw [hb, exceptBindError] at h2; exact Except.noConfusion h2
      | ok v1 =>
      rw [hb, exceptBindOk] at h2
      cases hc : readUInt16BE buf 2 with
      | error e => rw [hc, exceptBindError] at h2; exact Except.noConfusion h2
      | ok v2 =>
      rw [hc, exceptBindOk] at h2
      cases h2
      exact ⟨max (if v1 = 0 then 1 else v1) 1, rfl, le_max_right _ _⟩
    · cases h2
      exact ⟨1, rfl, le_rfl⟩

/-- Witness for C10 at the 1-byte buffer [5], which decodes through the
basic tier to gear 1. -/
theorem decode_gear_ge_one_witness :
    ∃ g, ({ speed := .num 5, gear := .num 1, rpm := 0, fuel := 0
            ridingMode := "Road"
            highBeam := false, hazard := false, engineCheck := false
            battery := false, odometer := "--"
            tripA := "", tripB := "", afe := "", bfe := "" } :
          TelemetryData).gear = .num g ∧ 1 ≤ g :=
  decode_gear_ge_one [5] _ (by decide) rfl

/-- C5, counterexample: on the empty buffer the decoder does not emit the
fully sentineled record — the basic tier applies and reports speed 0
(a number), gear 1 and rpm 0, not the "--" sentinels of the fallback
record. -/
theorem parse_error_fallback_cex :
    (parseIncomingData [] tripRandSample).1.speed = .num 0 ∧
    (parseIncomingData [] tripRandSample).1 ≠ fallbackData := by
  refine ⟨rfl, by decide⟩

/-- C5 (amended): whenever the decode of a buffer raises an exception
(for example a 10-byte buffer), `parseIncomingData` emits exactly the
fully sentineled fallback record, logs the failure at ERROR level, and
propagates no exception (the embedded function is total); the empty
buffer, however, is handled by the basic tier and produces a record with
numeric speed 0, gear 1, rpm 0, fuel 0, mode Road, all flags false and
odometer "--", not the full sentinel record. -/
theorem parse_error_fallback (buf : List Nat) (r : TripRand) (e : String)
    (h : parseStrategies buf = .error e) :
    parseIncomingData buf r =
      (fallbackData,
       [infoEntry "Received BLE data", errEntry "Data parsing failed"]) ∧
    (parseIncomingData [] r).1 =
      { speed := .num 0, gear := .num 1, rpm := 0, fuel := 0
        ridingMode := "Road"
        highBeam := false, hazard := false, engineCheck := false
        battery := false, odometer := "--"
        tripA := r.tripA, tripB := r.tripB, afe := r.afe, bfe := r.bfe } := by
  constructor
  · simp [parseIncomingData, h]
  · rfl

/-- Witness for C5 at the 10-byte buffer, whose decode throws. -/
theorem parse_error_fallback_witness :
    parseIncomingData [45, 3, 2, 88, 60, 0, 5, 0, 0, 0] tripRandSample =
      (fallbackData,
       [infoEntry "Received BLE data", errEntry "Data parsing failed"]) :=
  (parse_error_fallback [45, 3, 2, 88, 60, 0, 5, 0, 0, 0] tripRandSample
    "Trying to access beyond buffer length" rfl).1

/-- Appending through `log` with room to spare performs no eviction. -/
theorem logAll_no_evict (es : List LogEntry) :
    ∀ logs : List LogEntry, logs.length + es.length ≤ 500 →
      logAll logs es = logs ++ es := by
  induction es with
  | nil => intro logs _; simp [logAll]
  | cons e es ih =>
    intro logs h
    have hlen : logs.length + 1 ≤ 500 := by simp at h; omega
    have hstep : log logs e.level e.message = logs ++ [e] := by
      rw [log]
      simp only [List.length_append, List.length_cons, List.length_nil]
      rw [if_neg (by omega)]
    calc logAll logs (e :: es) = logAll (logs ++ [e]) es := by
          simp [logAll, hstep]
      _ = (logs ++ [e]) ++ es := ih (logs ++ [e]) (by simp at h ⊢; omega)
      _ = logs ++ e :: es := by simp

/-- Concatenation splits a `logAll` run. -/
theorem logAll_append (logs : List LogEntry) (es1 es2 : List LogEntry) :
    logAll logs (es1 ++ es2) = logAll (logAll logs es1) es2 :=
  List.foldl_append _ _ _ _

/-- A run of 501 appends into the empty log keeps exactly the last 500
entries. -/
theorem logAll_501 (es : List LogEntry) (h : es.length = 501) :
    logAll [] es = es.drop 1 := by
  have hsplit : es.take 500 ++ es.drop 500 = es := List.take_append_drop _ _
  have htake : (es.take 500).length = 500 := by simp [h]
  have hdrop1 : (es.drop 500).length = 1 := by simp [h]
  obtain ⟨l, hl⟩ := List.length_eq_one.mp hdrop1
  have h1 : logAll [] es = logAll (es.take 500) [l] := by
    conv_lhs => rw [← hsplit]
    rw [logAll_append, hl, logAll_no_evict (es.take 500) [] (by simp [htake])]
    simp
  have h2 : log (es.take 500) l.level l.message = (es.take 500 ++ [l]).drop 1 := by
    rw [log]
    simp only [List.length_append, htake, List.length_cons, List.length_nil]
    rw [if_pos (by omega)]
  rw [h1]
  simp only [logAll, List.foldl_cons, List.foldl_nil]
  rw [h2, ← hl, hsplit]

/-- C2 (confirmed): every append through `log` leaves at most 500
entries, and eviction is oldest-first: over any sequence of 501 appends
into an initially empty log, the resulting log is the sequence without
its first element, so the first entry appended is absent from
`getDebugLogs()` (provided it is not re-appended later) and the 501st
entry is present. -/
theorem log_cap_and_fifo :
    (∀ logs l m, (log logs l m).length ≤ 500) ∧
    (∀ es : List LogEntry, es.length = 501 →
      getDebugLogs (logAll [] es) = es.drop 1 ∧
      (∀ f, es.head? = some f → f ∉ es.drop 1 →
        f ∉ getDebugLogs (logAll [] es)) ∧
      (∀ l, es[500]? = some l → l ∈ getDebugLogs (logAll [] es))) := by
  constructor
  · intro logs l m
    rw [log]
    simp only [List.length_append, List.length_cons, List.length_nil]
    split_ifs with hlen
    · simp only [List.length_drop, List.length_append, List.length_cons,
        List.length_nil]
      omega
    · simp only [List.length_append, List.length_cons, List.length_nil]
      omega
  · intro es h
    have hrun : logAll [] es = es.drop 1 := logAll_501 es h
    refine ⟨hrun, ?_, ?_⟩
    · intro f _ hnot
      rw [getDebugLogs, hrun]
      exact hnot
    · intro l hl
      rw [getDebugLogs, hrun]
      have : (es.drop 1)[499]? = some l := by
        rw [List.getElem?_drop]
        exact hl
      exact List.getElem?_mem this

/-- Concrete run of 501 distinct entries for the C2 witness. -/
def demoEntries : List LogEntry :=
  (List.range 501).map fun i => ⟨"INFO", Nat.repr i⟩

set_option maxRecDepth 10000 in
/-- Witness for C2: after appending 501 distinct entries to an empty
log, the first is absent and the 501st is present. -/
theorem log_cap_and_fifo_witness :
    (⟨"INFO", "0"⟩ : LogEntry) ∉ getDebugLogs (logAll [] demoEntries) ∧
    (⟨"INFO", "500"⟩ : LogEntry) ∈ getDebugLogs (logAll [] demoEntries) := by
  have h := log_cap_and_fifo.2 demoEntries (by simp [demoEntries])
  exact ⟨h.2.1 ⟨"INFO", "0"⟩ (by decide) (by decide), h.2.2 ⟨"INFO", "500"⟩ (by decide)⟩

/-- C3, counterexample: a record saved when `Date.now()` is 0 is never
returned, even 59 minutes later (well within the 1-hour window), because
`getCachedData` requires the stored `timestamp` field to be truthy and 0
is falsy. -/
theorem cache_ttl_cex :
    getCachedData (saveCachedData fallbackData 0) 3540000 = none := by
  rfl

/-- C3 (amended): for every record saved at a nonzero time T, the cache
returns exactly that record (with its capture time) at every query time
with signed difference to T below one hour, and nothing at one hour or
beyond; in particular the record is returned at T plus 59 minutes and
rejected at T plus 61 minutes.  A record saved at time 0 is never
returned because of the timestamp truthiness check. -/
theorem cache_ttl (d : TelemetryData) (T Tq : Nat) (hT : 0 < T) :
    ((Tq : ℤ) - (T : ℤ) < 3600000 →
      getCachedData (saveCachedData d T) Tq = some (d, T)) ∧
    (3600000 ≤ (Tq : ℤ) - (T : ℤ) →
      getCachedData (saveCachedData d T) Tq = none) ∧
    getCachedData (saveCachedData d T) (T + 3540000) = some (d, T) ∧
    getCachedData (saveCachedData d T) (T + 3660000) = none := by
  refine ⟨?_, ?_, ?_, ?_⟩ <;>
    simp only [saveCachedData, getCachedData] <;>
    intros <;> split_ifs with h <;> first
      | rfl
      | (exfalso; push_cast at h ⊢; omega)

/-- Witness for C3 at a concrete save time 1 and query times 2,
1 + 59 min and 1 + 61 min. -/
theorem cache_ttl_witness :
    getCachedData (saveCachedData fallbackData 1) 2 = some (fallbackData, 1) ∧
    getCachedData (saveCachedData fallbackData 1) 3540001 = some (fallbackData, 1) ∧
    getCachedData (saveCachedData fallbackData 1) 3660001 = none := by
  have h := cache_ttl fallbackData 1 2 (by decide)
  exact ⟨h.1 (by decide), (cache_ttl fallbackData 1 2 (by decide)).2.2.1,
    (cache_ttl fallbackData 1 2 (by decide)).2.2.2⟩

/-- C6, counterexample: a location-derived estimate of 250 km/h lies
within the [0, 300] interval of the claim but is not delivered to the
data callback, and neither is an estimate of exactly 0, because the BLE
manager GPS fallback only emits for `speed > 0 && speed < 200`. -/
theorem gps_speed_range_cex :
    gpsFallbackEmit 250 = none ∧ (0 : ℚ) ≤ 250 ∧ (250 : ℚ) ≤ 300 ∧
    gpsFallbackEmit 0 = none := by
  refine ⟨rfl, by norm_num, by norm_num, rfl⟩

/-- C6 (amended): the BLE manager GPS fallback delivers the
location-derived speed estimate to the data callback exactly when it lies
strictly between 0 and 200 km/h; in particular estimates of -5 km/h and
350 km/h are discarded and 60 km/h is emitted (rounded).  The
SensorManager GPS tracker instead zeroes estimates outside [0, 300]
before always delivering a location sample. -/
theorem gps_speed_range :
    (∀ s : ℚ, (gpsFallbackEmit s).isSome = true ↔ 0 < s ∧ s < 200) ∧
    gpsFallbackEmit (-5) = none ∧
    gpsFallbackEmit 350 = none ∧
    gpsFallbackEmit 60 = some 60 ∧
    sensorValidateSpeed (-5) = 0 ∧
    sensorValidateSpeed 350 = 0 ∧
    sensorValidateSpeed 60 = 60 := by
  refine ⟨?_, rfl, rfl, ?_, ?_, ?_, ?_⟩
  · intro s
    rw [gpsFallbackEmit]
    split_ifs with h <;> simp [h]
  · rw [gpsFallbackEmit, if_pos (by norm_num)]
    norm_num [jsRound]
  · rw [sensorValidateSpeed, if_pos (by norm_num)]
  · rw [sensorValidateSpeed, if_pos (by norm_num)]
  · rw [sensorValidateSpeed, if_neg (by norm_num)]

/-- Witness for C6: the emission criterion applied at the concrete
estimate 60 km/h. -/
theorem gps_speed_range_witness :
    (gpsFallbackEmit 60).isSome = true :=
  (gps_speed_range.1 60).mpr (by norm_num)

/-- C9 helper: one tick keeps the gear within [1, 6] whenever it starts
there. -/
theorem mockTick_gear_bounds (m : MockData) (r : MockRand)
    (h1 : 1 ≤ m.gear) (h2 : m.gear ≤ 6) :
    1 ≤ (mockTick m r).gear ∧ (mockTick m r).gear ≤ 6 := by
  rw [mockTick]
  split_ifs <;> simp <;> omega

/-- C9 helper: any run of ticks keeps the gear within [1, 6]. -/
theorem mockRun_gear_bounds (rs : List MockRand) :
    ∀ m : MockData, 1 ≤ m.gear → m.gear ≤ 6 →
      1 ≤ (mockRun m rs).gear ∧ (mockRun m rs).gear ≤ 6 := by
  induction rs with
  | nil => intro m h1 h2; exact ⟨h1, h2⟩
  | cons r rs ih =>
    intro m h1 h2
    have h := mockTick_gear_bounds m r h1 h2
    simpa [mockRun] using ih (mockTick m r) h.1 h.2

/-- C9 (confirmed): a mock generator tick never invents motion — zero
speed stays zero and zero rpm stays zero; the gear moves only by one
step, only when the (freshly updated) synthetic speed exceeds 10 and the
low-probability event fires, and starting from a gear in [1, 6] (as the
generator does, with initial gear 1) the gear stays in [1, 6] over any
run. -/
theorem mock_generator_spec :
    (∀ m r, m.speed = 0 → (mockTick m r).speed = 0) ∧
    (∀ m r, m.rpm = 0 → (mockTick m r).rpm = 0) ∧
    (∀ m r, 1 ≤ m.gear → m.gear ≤ 6 →
      1 ≤ (mockTick m r).gear ∧ (mockTick m r).gear ≤ 6 ∧
      ((mockTick m r).gear ≠ m.gear →
        ((mockTick m r).gear - m.gear = 1 ∨ (mockTick m r).gear - m.gear = -1) ∧
        10 < (mockTick m r).speed)) ∧
    (∀ rs, 1 ≤ (mockRun initialMockData rs).gear ∧
      (mockRun initialMockData rs).gear ≤ 6) := by
  refine ⟨?_, ?_, ?_, ?_⟩
  · intro m r h
    rw [mockTick]
    simp only [h]
    norm_num
  · intro m r h
    rw [mockTick]
    simp only [h]
    norm_num
  · intro m r h1 h2
    refine ⟨(mockTick_gear_bounds m r h1 h2).1, (mockTick_gear_bounds m r h1 h2).2, ?_⟩
    intro hne
    rw [mockTick] at hne ⊢
    simp only at hne ⊢
    split_ifs at hne ⊢ with hs hc hr
    all_goals first
      | exact absurd rfl hne
      | (rename_i hco hr0; exact ⟨by omega, hco.1⟩)
      | exact ⟨by omega, hc.1⟩
  · intro rs
    exact mockRun_gear_bounds rs initialMockData (by norm_num [initialMockData])
      (by norm_num [initialMockData])

/-- Sample random draws for the C9 witness. -/
def mockRandSample : MockRand := ⟨0, 0, 0, 1, 1⟩

/-- Witness for C9 at the initial mock state: speed and rpm stay zero
and the gear stays within [1, 6]. -/
theorem mock_generator_spec_witness :
    (mockTick initialMockData mockRandSample).speed = 0 ∧
    (mockTick initialMockData mockRandSample).rpm = 0 ∧
    1 ≤ (mockTick initialMockData mockRandSample).gear ∧
    (mockTick initialMockData mockRandSample).gear ≤ 6 := by
  refine ⟨mock_generator_spec.1 initialMockData mockRandSample rfl,
    mock_generator_spec.2.1 initialMockData mockRandSample rfl,
    (mock_generator_spec.2.2.1 initialMockData mockRandSample (by decide) (by decide)).1,
    (mock_generator_spec.2.2.1 initialMockData mockRandSample (by decide) (by decide)).2.1⟩

/-- Log entries produced by a run of consecutive failing strategies
starting at attempt number `i`. -/
def authFailLogs : Nat → List String → List LogEntry
  | _, [] => []
  | i, m :: ms => attemptLog i :: attemptFailLog i m :: authFailLogs (i + 1) ms

/-- Every run of the authentication loop resolves normally, whatever the
strategy outcomes: each strategy error is caught inside the loop. -/
theorem authLoop_ok (rs : List (Except String Unit)) :
    ∀ i, (authLoop i rs).2 = .ok () := by
  induction rs with
  | nil => intro i; rfl
  | cons r rs ih =>
    intro i
    cases r with
    | ok _ => rfl
    | error m => simpa [authLoop] using ih (i + 1)

/-- The authentication loop stops at the first successful strategy:
strategies after it contribute nothing. -/
theorem authLoop_first_success (ms : List String) :
    ∀ (i : Nat) (rest : List (Except String Unit)),
      authLoop i (ms.map Except.error ++ Except.ok () :: rest) =
        (authFailLogs i ms ++ [attemptLog (i + ms.length), attemptOkLog (i + ms.length)],
         .ok ()) := by
  induction ms with
  | nil => intro i rest; simp [authLoop, authFailLogs]
  | cons m ms ih =>
    intro i rest
    have hidx : i + 1 + ms.length = i + (ms.length + 1) := by omega
    simp [authLoop, authFailLogs, ih, hidx]

/-- C4 (confirmed): the authentication chain tries the strategies in
their fixed order and returns right after the first success, attempting
no later strategy; it resolves normally for every combination of
outcomes; with all three strategies failing it logs one failure entry
per strategy plus the exhaustion warning and still resolves, so
`connectToDevice` proceeds to set up data monitoring exactly once. -/
theorem auth_chain_spec :
    (∀ (ms : List String) (rest : List (Except String Unit)),
      attemptAuthentication (ms.map Except.error ++ Except.ok () :: rest) =
        (authFailLogs 1 ms ++ [attemptLog (1 + ms.length), attemptOkLog (1 + ms.length)],
         .ok ())) ∧
    (∀ rs, (attemptAuthentication rs).2 = .ok ()) ∧
    (∀ m1 m2 m3, attemptAuthentication [.error m1, .error m2, .error m3] =
      ([attemptLog 1, attemptFailLog 1 m1, attemptLog 2, attemptFailLog 2 m2,
        attemptLog 3, attemptFailLog 3 m3, exhaustLog], .ok ())) ∧
    (∀ m1 m2 m3 c, connectToDevice (.ok ()) [.error m1, .error m2, .error m3] c =
      .ok { discovers := c.discovers + 1, monitorSetups := c.monitorSetups + 1,
            connCallbacks := c.connCallbacks + 1, dataUpdates := c.dataUpdates + 1 }) := by
  refine ⟨?_, ?_, ?_, ?_⟩
  · intro ms rest
    exact authLoop_first_success ms 1 rest
  · intro rs
    exact authLoop_ok rs 1
  · intro m1 m2 m3
    rfl
  · intro m1 m2 m3 c
    rfl

/-- C8 (amended): the manager lifecycle entry point never rejects, in
particular not when the required permissions are denied: a denied
location permission only yields a WARN entry while initialization
continues, loads the cached telemetry snapshot into `lastKnownData` and
merges the persisted custom link settings before resolving. -/
theorem init_never_rejects :
    ∀ env sto st, ∃ r, initManager env sto st = .ok r ∧
      (env.locationGranted = .ok false →
        warnEntry "Location permission denied - GPS fallback unavailable" ∈ r.2) ∧
      (∀ d, sto.cachedData = .ok (some d) → r.1.lastKnownData = some d) ∧
      (∀ c p, sto.cachedData = .ok c → sto.customSettings = .ok (some p) →
        r.1.customSettings = mergeSettings st.customSettings p) := by
  intro env sto st
  refine ⟨_, rfl, ?_, ?_, ?_⟩
  · intro h
    rcases hc : env.cameraGranted with e | b
    · simp [initManager, requestPermissions, h, hc]
    · simp [initManager, requestPermissions, h, hc]
  · intro d hd
    rcases hp : sto.customSettings with e | p
    · simp [initManager, loadCachedSettings, hd, hp]
    · rcases p with _ | patch <;> simp [initManager, loadCachedSettings, hd, hp]
  · intro c p hc hp
    rcases c with _ | d <;> simp [initManager, loadCachedSettings, hc, hp]

/-- Permission environment with the location permission denied. -/
def deniedPermEnv : PermEnv := ⟨.ok false, .ok true⟩

/-- Storage environment with no persisted data. -/
def emptyStorage : StorageEnv := ⟨.ok none, .ok none⟩

/-- C8, counterexample: with the location permission denied, the
lifecycle entry point does not reject with a PermissionError — it
resolves successfully, logging only a warning. -/
theorem init_never_rejects_cex :
    initManager deniedPermEnv emptyStorage initialBleState =
      .ok (initialBleState,
        [infoEntry "Initializing BLE Manager",
         warnEntry "Location permission denied - GPS fallback unavailable",
         infoEntry "Permissions requested",
         infoEntry "BLE Manager initialized successfully"]) := by
  rfl

/-- Sample custom-settings patch for the C8 witness. -/
def sampleSettingsPatch : SettingsPatch := ⟨some "svc", none, none⟩

/-- Storage environment holding a cached record and a settings patch. -/
def sampleStorage : StorageEnv :=
  ⟨.ok (some fallbackData), .ok (some sampleSettingsPatch)⟩

/-- Witness for C8 at a concrete denied environment with persisted
cache and settings. -/
theorem init_never_rejects_witness :
    ∃ r, initManager deniedPermEnv sampleStorage initialBleState = .ok r ∧
      warnEntry "Location permission denied - GPS fallback unavailable" ∈ r.2 ∧
      r.1.lastKnownData = some fallbackData ∧
      r.1.customSettings = mergeSettings initialBleState.customSettings sampleSettingsPatch := by
  obtain ⟨r, h1, h2, h3, h4⟩ :=
    init_never_rejects deniedPermEnv sampleStorage initialBleState
  exact ⟨r, h1, h2 rfl, h3 fallbackData rfl,
    h4 (some fallbackData) sampleSettingsPatch rfl rfl⟩

end Yezdi
